import Mathlib

/-!
Verification of the voice-to-task extraction and retrieval-augmented estimation
pipeline of the business-planner repository.

The Python sources are shallowly embedded: pure functions become Lean functions,
every external call (OpenAI providers, database engine) is an explicit parameter
holding the outcome of that call, Python exceptions become an Except monad over a
PyError type, and machine integers are Int (no overflow is reachable in any
modelled path). Structures and functions keep the source names where Lean allows.
-/

namespace BusinessPlanner

/-- Kinds of Python exception raised in the modelled code paths. Every kind is a
subclass of Exception in Python, so a blanket except-Exception handler catches all
of them. -/
inductive PyError where
  | valueError (msg : String)
  | assertionError (msg : String)
  | validationError (msg : String)
  | attributeError (msg : String)
  | apiError (msg : String)
deriving Repr, DecidableEq

/-- Message text carried by an exception (str(e) in the source). -/
def pyErrText (e : PyError) : String :=
  match e with
  | .valueError m => m
  | .assertionError m => m
  | .validationError m => m
  | .attributeError m => m
  | .apiError m => m

/-- Result of datetime.fromisoformat; only the fields the workflow reads are kept. -/
structure PyDateTime where
  year : Int
  month : Int
  day : Int
  hour : Int := 0
  minute : Int := 0
  second : Int := 0
deriving Repr, DecidableEq

/-- Row of the tasks table (TaskORM, src/infrastructure/database/models.py lines
147-208), with the column defaults of the source. Timestamps are abstract integer
ticks and the pgvector embedding is a rational vector. -/
structure TaskRow where
  id : Nat
  user_id : Nat
  business_id : Int
  title : String
  description : Option String := none
  status : String := "open"
  priority : Int := 2
  estimated_duration : Option Int := none
  actual_duration : Option Int := none
  deadline : Option PyDateTime := none
  completed_at : Option Int := none
  embedding : Option (List Rat) := none
deriving Repr, DecidableEq

/-- Whitespace recognized by Python str.strip in the transcripts and titles this
system handles (the full Unicode whitespace set of Python is not reachable here). -/
def isPySpace (c : Char) : Bool :=
  c = ' ' || c = '\t' || c = '\n' || c = '\x0d'

/-- Python str.strip(): drop whitespace from both ends. -/
def pyStrip (s : String) : String :=
  String.mk (((s.data.dropWhile isPySpace).reverse.dropWhile isPySpace).reverse)

/-- Status pattern of the Task pydantic model (open|done|archived). -/
def validTaskStatus (s : String) : Bool :=
  s = "open" || s = "done" || s = "archived"

/-- Closed-interval bound check used by the pydantic ge/le field constraints. -/
def inRange (lo hi x : Int) : Bool :=
  lo ≤ x && x ≤ hi

/-- Bound check for an optional column (NULL always passes). -/
def optInRange (lo hi : Int) (x : Option Int) : Bool :=
  match x with
  | none => true
  | some v => inRange lo hi v

/-- Pydantic validation run by Task.model_validate (src/domain/models/task.py,
class Task with TaskBase): title of length 1..500 then stripped and required
non-empty, business_id in 1..4, priority in 1..4, status matching the pattern,
and both durations in 1..480 when present. Returns the model with the stripped
title. -/
def taskModelValidate (r : TaskRow) : Except PyError TaskRow :=
  if r.title.length < 1 || 500 < r.title.length then
    .error (.validationError "title: length out of bounds")
  else if pyStrip r.title = "" then
    .error (.validationError "Title cannot be empty or whitespace")
  else if !(inRange 1 4 r.business_id) then
    .error (.validationError "business_id: out of range")
  else if !(inRange 1 4 r.priority) then
    .error (.validationError "priority: out of range")
  else if !(validTaskStatus r.status) then
    .error (.validationError "status: pattern mismatch")
  else if !(optInRange 1 480 r.estimated_duration) then
    .error (.validationError "estimated_duration: out of range")
  else if !(optInRange 1 480 r.actual_duration) then
    .error (.validationError "actual_duration: out of range")
  else
    .ok { r with title := pyStrip r.title }

/-- Python repr of an optional int as it appears inside an f-string
(None prints as the text None). -/
def pyShowOptInt (x : Option Int) : String :=
  match x with
  | none => "None"
  | some n => toString n

/-- Membership test of the business argument in the fixed enumeration, as written
in the source (business_id not in [1, 2, 3, 4]); the argument is an Option because
Python would pass None through the int annotation unchecked. -/
def validBusinessArg (b : Option Int) : Bool :=
  b == some 1 || b == some 2 || b == some 3 || b == some 4

/-- The paranoid validation loop of ADR-003 (present both in
TaskRepository.find_similar lines 177-180 and RAGRetriever.find_similar_tasks
lines 80-84): assert each returned row carries the requested business id; the
first mismatch raises AssertionError. -/
def isolationAssert (tasks : List TaskRow) (b : Option Int) : Except PyError Unit :=
  match tasks.find? (fun t => !(some t.business_id == b)) with
  | some t =>
      .error (.assertionError ("RAG isolation breach! Expected business " ++
        pyShowOptInt b ++ ", got " ++ toString t.business_id))
  | none => .ok ()

/-- TaskRepository.find_similar (task_repository.py lines 128-189). The database
engine call (session.execute of the business-filtered pgvector query) is the
external boundary: dbResult stands for its outcome, which lets a buggy or
tampered store return rows from another partition. After the engine returns, the
rows are converted through Task.model_validate and the paranoid assertion loop
runs. -/
def find_similar (dbResult : Except PyError (List TaskRow)) (business_id : Option Int) :
    Except PyError (List TaskRow) :=
  if validBusinessArg business_id then do
    let rows ← dbResult
    let tasks ← rows.mapM taskModelValidate
    let _ ← isolationAssert tasks business_id
    .ok tasks
  else
    .error (.valueError ("Invalid business_id: " ++ pyShowOptInt business_id))

/-- Outcomes of the external calls made during one RAGRetriever.find_similar_tasks
call: the embedding provider response for the title, and the database engine
response for the similarity query (a function of the query embedding and the
result limit). -/
structure RetrieverEnv where
  embedResult : Except PyError (List Rat)
  dbResult : List Rat → Nat → Except PyError (List TaskRow)

/-- Result of one retriever call, together with which external calls were reached
before it returned. -/
structure RetrieverRun where
  result : Except PyError (List TaskRow)
  embedCalled : Bool
  storeCalled : Bool
deriving Repr

/-- settings.rag_top_k default (src/config.py line 93). -/
def rag_top_k : Nat := 5

/-- RAGRetriever.find_similar_tasks (src/ai/rag/retriever.py lines 32-102):
validate business_id first, raising ValueError outside the try block; then,
inside a try with a blanket except Exception, embed the title, query the
repository, run the paranoid assertion loop and return the rows. Any exception
raised inside the try block — including the AssertionError of the isolation
assert, a subclass of Exception — is caught, logged, and an empty list is
returned. -/
def find_similar_tasks (env : RetrieverEnv) (business_id : Option Int)
    (top_k : Option Nat) : RetrieverRun :=
  if validBusinessArg business_id then
    let k := top_k.getD rag_top_k
    match env.embedResult with
    | .error _ => { result := .ok [], embedCalled := true, storeCalled := false }
    | .ok embedding =>
      let body : Except PyError (List TaskRow) :=
        match find_similar (env.dbResult embedding k) business_id with
        | .error e => .error e
        | .ok tasks =>
          match isolationAssert tasks business_id with
          | .error e => .error e
          | .ok _ => .ok tasks
      match body with
      | .error _ => { result := .ok [], embedCalled := true, storeCalled := true }
      | .ok tasks => { result := .ok tasks, embedCalled := true, storeCalled := true }
  else
    { result := .error (.valueError ("Invalid business_id: " ++ pyShowOptInt business_id ++
        ". This violates ADR-003 (Business Isolation)")),
      embedCalled := false, storeCalled := false }

/-- Environment in which the embedding succeeds and the store returns one valid
completed task of business 1; used to exercise the retriever at a valid input. -/
def inventumRow : TaskRow :=
  { id := 3, user_id := 1, business_id := 1, title := "Починить фрезер для Иванова",
    status := "done", priority := 2, estimated_duration := some 90,
    actual_duration := some 100, completed_at := some 10, embedding := some [1, 0] }

def inventumEnv : RetrieverEnv :=
  { embedResult := .ok [1, 0], dbResult := fun _ _ => .ok [inventumRow] }

/-- Row tagged with business 2, as returned by a buggy or tampered store while the
retriever is queried for business 1 (spec scenario 5). -/
def breachRow : TaskRow :=
  { id := 7, user_id := 1, business_id := 2, title := "Фрезеровка коронки",
    status := "done", priority := 2, estimated_duration := some 90,
    actual_duration := some 80, completed_at := some 10, embedding := some [0, 1] }

def breachEnv : RetrieverEnv :=
  { embedResult := .ok [1, 0], dbResult := fun _ _ => .ok [breachRow] }


/-! Extraction stage: ParsedTask and the task parser (src/ai/parsers/task_parser.py). -/

/-- Field values of the JSON object the extraction provider returns, as passed to
ParsedTask(**parsed_data); none stands for an absent key. (A JSON null under a
required key, which pydantic would also reject, is not distinguished from an
absent key; no claim depends on that distinction.) -/
structure ParsedTaskInput where
  title : Option String := none
  business_id : Option Int := none
  deadline_text : Option String := none
  project_name : Option String := none
  assigned_to_name : Option String := none
  priority : Option Int := none
  description : Option String := none
deriving Repr, DecidableEq

/-- ParsedTask (task_parser.py lines 18-30): a plain pydantic BaseModel. Its fields
carry NO constraint of any kind — in particular business_id is a bare int with no
range bound. -/
structure ParsedTask where
  title : String
  business_id : Int
  deadline_text : Option String := none
  project_name : Option String := none
  assigned_to_name : Option String := none
  priority : Int := 2
  description : Option String := none
deriving Repr, DecidableEq

/-- Pydantic construction ParsedTask(**parsed_data): title and business_id are
required (absence raises ValidationError), the remaining fields default; no range
check is applied to any value. -/
def parsedTaskValidate (d : ParsedTaskInput) : Except PyError ParsedTask :=
  match d.title with
  | none => .error (.validationError "title: Field required")
  | some t =>
    match d.business_id with
    | none => .error (.validationError "business_id: Field required")
    | some b =>
      .ok { title := t, business_id := b, deadline_text := d.deadline_text,
            project_name := d.project_name, assigned_to_name := d.assigned_to_name,
            priority := d.priority.getD 2, description := d.description }

/-- parse_task_from_transcript (task_parser.py lines 33-83): call the provider,
validate the JSON into a ParsedTask, and re-raise any failure (provider error or
ValidationError) as ValueError("Failed to parse task: ..."). -/
def parse_task_from_transcript (providerResult : Except PyError ParsedTaskInput) :
    Except PyError ParsedTask :=
  match (match providerResult with
         | .error e => .error e
         | .ok d => parsedTaskValidate d : Except PyError ParsedTask) with
  | .ok p => .ok p
  | .error e => .error (.valueError ("Failed to parse task: " ++ pyErrText e))

/-- Runtime value of a Python attribute read. -/
inductive PyValue where
  | vStr (s : String)
  | vInt (n : Int)
  | vNone
deriving Repr, DecidableEq

/-- Optional string as a Python value. -/
def pyOptStr (x : Option String) : PyValue :=
  match x with
  | none => .vNone
  | some s => .vStr s

/-- Python attribute lookup on a ParsedTask instance: only the declared pydantic
fields resolve; any other name raises AttributeError (pydantic BaseModel getattr
behaviour). -/
def ParsedTask.getattr (p : ParsedTask) (name : String) : Except PyError PyValue :=
  if name = "title" then .ok (.vStr p.title)
  else if name = "business_id" then .ok (.vInt p.business_id)
  else if name = "deadline_text" then .ok (pyOptStr p.deadline_text)
  else if name = "project_name" then .ok (pyOptStr p.project_name)
  else if name = "assigned_to_name" then .ok (pyOptStr p.assigned_to_name)
  else if name = "priority" then .ok (.vInt p.priority)
  else if name = "description" then .ok (pyOptStr p.description)
  else .error (.attributeError ("ParsedTask object has no attribute " ++ name))

/-- Extraction output with an out-of-range business id, as could be produced by a
misbehaving provider. -/
def outOfRangeInput : ParsedTaskInput :=
  { title := some "Починить фрезер", business_id := some 0 }


/-! Numeric estimation client (src/infrastructure/external/openai_client.py). -/

/-- Digits of a decimal literal; none when empty or containing a non-digit. -/
def digitsToNat (l : List Char) : Option Nat :=
  if l = [] then none
  else if l.all Char.isDigit then
    some (l.foldl (fun acc c => acc * 10 + (c.toNat - 48)) 0)
  else none

/-- Python int(str): optional surrounding whitespace, optional sign, decimal
digits; anything else raises ValueError (here: none). Underscore digit grouping,
accepted by Python, is not modelled since no modelled reply contains it. -/
def pyInt (s : String) : Option Int :=
  match (pyStrip s).data with
  | '-' :: rest => (digitsToNat rest).map (fun n => -(n : Int))
  | '+' :: rest => (digitsToNat rest).map (fun n => (n : Int))
  | l => (digitsToNat l).map (fun n => (n : Int))

/-- OpenAIClient._build_time_estimation_context (openai_client.py lines 347-369):
prompt when similar tasks exist; each neighbor is rendered 1-based with its title
and actual duration. -/
def build_time_estimation_context (task_title business_name : String)
    (similar_tasks : List (String × Option Int)) : String :=
  let similar_info := similar_tasks.enum.map (fun p =>
    toString (p.1 + 1) ++ ". \"" ++ p.2.1 ++ "\" → actual: " ++
      pyShowOptInt p.2.2 ++ " min")
  "NEW TASK:\n\"" ++ task_title ++ "\"\n\nBusiness: " ++ business_name ++
    "\n\nSIMILAR PAST TASKS:\n" ++ String.intercalate "\n" similar_info ++
    "\n\nBased on these similar tasks, estimate duration in minutes.\nReturn ONLY a number (minutes)."

/-- OpenAIClient._build_time_estimation_no_history (lines 371-390): prompt when no
similar tasks were found, carrying the coarse category guides (calls 30, repairs
120, modeling 90, prototypes 240 minutes). -/
def build_time_estimation_no_history (task_title business_name : String) : String :=
  "NEW TASK:\n\"" ++ task_title ++ "\"\n\nBusiness: " ++ business_name ++
    "\n\nNO SIMILAR TASKS FOUND.\n\nEstimate duration based on task title. Use these guides:\n- Phone calls: 30 min\n- Repairs: 120 min\n- Modeling: 90 min\n- Prototypes: 240 min\n\nReturn ONLY a number (minutes)."

/-- The user prompt estimate_time sends: the with-history context when the
truthiness test on similar_tasks passes, the no-history context otherwise. -/
def estimateContext (task_title business_name : String)
    (similar_tasks : List (String × Option Int)) : String :=
  if similar_tasks.isEmpty then
    build_time_estimation_no_history task_title business_name
  else
    build_time_estimation_context task_title business_name similar_tasks

/-- OpenAIClient.estimate_time (lines 167-230): build the prompt, call the chat
provider (chatResult is the outcome as a function of the prompt sent), strip and
int() the reply; an unparsable reply, a reply outside [1, 480], or any provider
exception is replaced by the default 60. -/
def estimate_time (task_title business_name : String)
    (similar_tasks : List (String × Option Int))
    (chatResult : String → Except PyError String) : Int :=
  match chatResult (estimateContext task_title business_name similar_tasks) with
  | .error _ => 60
  | .ok reply =>
    match pyInt (pyStrip reply) with
    | none => 60
    | some duration => if duration < 1 ∨ 480 < duration then 60 else duration

/-! Pipeline state and nodes (src/ai/graphs/voice_task_creation.py). -/

/-- VoiceTaskState (lines 30-65). parsed_deadline is the key the parse node writes
at runtime (the TypedDict declares parsed_deadline_text, but a Python dict accepts
the extra key). Timestamps are integer milliseconds. -/
structure VoiceTaskState where
  audio_bytes : List Nat
  audio_duration : Int
  user_id : Nat
  telegram_chat_id : Int
  transcript : Option String := none
  transcript_confidence : Option Rat := none
  parsed_title : Option String := none
  parsed_business_id : Option Int := none
  parsed_deadline_text : Option String := none
  parsed_deadline : Option String := none
  parsed_assigned_to : Option String := none
  parsed_priority : Option Int := none
  similar_tasks_count : Nat := 0
  estimated_duration : Option Int := none
  created_task_id : Option Nat := none
  telegram_response : Option String := none
  error : Option String := none
  error_message : Option String := none
  processing_start : Int := 0
  processing_time_ms : Int := 0
deriving Repr, DecidableEq

/-- transcribe_voice_node (lines 72-103). transcribeText is the Whisper provider
outcome; on success the client pairs the text with the fixed 0.95 confidence.
This node does NOT check the error slot before working. -/
def transcribe_voice_node (transcribeText : Except PyError String)
    (state : VoiceTaskState) : VoiceTaskState :=
  match transcribeText with
  | .ok t =>
    { state with transcript := some t, transcript_confidence := some (0.95 : Rat) }
  | .error e =>
    { state with error := some "TranscriptionFailed",
                 error_message := some ("Не удалось распознать голос: " ++ pyErrText e) }

/-- A Python str-or-None value stored into a state slot. -/
def pyValToOptStr (v : PyValue) : Option String :=
  match v with
  | .vStr s => some s
  | .vInt n => some (toString n)
  | .vNone => none

/-- parse_task_node (lines 106-148): short-circuit on an existing error; otherwise
parse the transcript and read parsed.deadline (the logging call of line 130) and
parsed.assigned_to — attribute names ParsedTask does not declare (it declares
deadline_text and assigned_to_name), so the success path raises AttributeError
inside the try block, which the except block converts to the ParsingFailed
error. -/
def parse_task_node (providerResult : Except PyError ParsedTaskInput)
    (state : VoiceTaskState) : VoiceTaskState :=
  if state.error.isSome then state
  else
    let body : Except PyError VoiceTaskState :=
      match parse_task_from_transcript providerResult with
      | .error e => .error e
      | .ok parsed =>
        match parsed.getattr "deadline" with
        | .error e => .error e
        | .ok d =>
          match parsed.getattr "assigned_to" with
          | .error e => .error e
          | .ok a =>
            .ok { state with
                  parsed_title := some parsed.title,
                  parsed_business_id := some parsed.business_id,
                  parsed_deadline := pyValToOptStr d,
                  parsed_assigned_to := pyValToOptStr a,
                  parsed_priority := some parsed.priority }
    match body with
    | .ok s => s
    | .error e =>
      { state with error := some "ParsingFailed",
                   error_message := some ("Не удалось понять задачу: " ++ pyErrText e) }

/-- Python rendering of an optional string inside an f-string (None prints as
the text None). -/
def pyShowOptStr (x : Option String) : String :=
  match x with
  | none => "None"
  | some t => t

/-- Outcomes of the external calls available to estimate_time_rag_node: database
session acquisition, the retriever's external calls, and the estimation chat
completion as a function of the prompt sent. -/
structure EstimateEnv where
  sessionResult : Except PyError Unit
  retriever : RetrieverEnv
  chatResult : String → Except PyError String

/-- estimate_time_rag_node (lines 151-228), paired with a Bool recording whether
the numeric-estimation provider was invoked. Short-circuits on an existing error.
Inside the try block: acquire a session, call the retriever (which raises
ValueError when the business id in the state is invalid), then — only when the
returned neighbor list is non-empty — call estimate_time; with no neighbors the
fixed default of 60 minutes is used directly, without any provider call. Any
exception inside the try block is absorbed: the node then returns the state with
the default 60-minute estimate and a zero similar-task count, leaving the error
slot untouched. -/
def estimate_time_rag_nodeRun (env : EstimateEnv) (state : VoiceTaskState) :
    VoiceTaskState × Bool :=
  if state.error.isSome then (state, false)
  else
    let body : Except PyError (VoiceTaskState × Bool) :=
      match env.sessionResult with
      | .error e => .error e
      | .ok _ =>
        match (find_similar_tasks env.retriever state.parsed_business_id none).result with
        | .error e => .error e
        | .ok similar_tasks =>
          if similar_tasks.isEmpty then
            .ok ({ state with similar_tasks_count := 0, estimated_duration := some 60 },
              false)
          else
            let similar_data := similar_tasks.map (fun t => (t.title, t.actual_duration))
            let d := estimate_time (pyShowOptStr state.parsed_title)
              ("Business " ++ pyShowOptInt state.parsed_business_id)
              similar_data env.chatResult
            .ok ({ state with similar_tasks_count := similar_tasks.length,
                              estimated_duration := some d },
              true)
    match body with
    | .ok r => r
    | .error _ =>
      ({ state with similar_tasks_count := 0, estimated_duration := some 60 }, false)

/-- The state transformation of the estimation node. -/
def estimate_time_rag_node (env : EstimateEnv) (state : VoiceTaskState) :
    VoiceTaskState :=
  (estimate_time_rag_nodeRun env state).1

/-! Persistence stage: TaskCreate and create_task_db_node. -/

/-- TaskCreate (src/domain/models/task.py lines 77-117 together with TaskBase
lines 17-74). Note the model declares NO estimated_duration field; the only
duration-bearing fields live on the response model Task. -/
structure TaskCreate where
  title : String
  description : Option String := none
  business_id : Int
  project_id : Option Nat := none
  assigned_to : Option Nat := none
  priority : Int := 2
  deadline : Option PyDateTime := none
  deadline_text : Option String := none
  created_via : String := "api"
deriving Repr, DecidableEq

/-- created_via pattern voice|text|api. -/
def validCreatedVia (s : String) : Bool :=
  s = "voice" || s = "text" || s = "api"

/-- Pydantic construction TaskCreate(title=..., business_id=..., priority=...,
estimated_duration=..., deadline=..., deadline_text=..., created_via=...) exactly
as create_task_db_node performs it. The estimated_duration keyword is NOT a
TaskCreate field: the default extra-field policy of pydantic silently ignores it,
so the argument is accepted and dropped. An explicit None for the non-optional
title, business_id or priority is rejected. -/
def taskCreateInit (title : Option String) (business_id : Option Int)
    (priority : Option Int) (estimated_duration : Option Int)
    (deadline : Option PyDateTime) (deadline_text : Option String)
    (created_via : String) : Except PyError TaskCreate :=
  match title with
  | none => .error (.validationError "title: Input should be a valid string")
  | some t =>
    if t.length < 1 || 500 < t.length then
      .error (.validationError "title: length out of bounds")
    else if pyStrip t = "" then
      .error (.validationError "Title cannot be empty or whitespace")
    else
      match business_id with
      | none => .error (.validationError "business_id: Input should be a valid integer")
      | some b =>
        if !(inRange 1 4 b) then
          .error (.validationError "business_id: out of range")
        else
          match priority with
          | none => .error (.validationError "priority: Input should be a valid integer")
          | some p =>
            if !(inRange 1 4 p) then
              .error (.validationError "priority: out of range")
            else if !(validCreatedVia created_via) then
              .error (.validationError "created_via: pattern mismatch")
            else if deadline.isSome && deadline_text.isSome then
              .error (.validationError "Provide either deadline or deadline_text, not both")
            else
              .ok { title := pyStrip t, business_id := b, priority := p,
                    deadline := deadline, deadline_text := deadline_text,
                    created_via := created_via }

/-- TaskRepository.create (task_repository.py lines 37-70): insert a TaskORM row
built from the dumped TaskCreate fields (created_via and deadline_text excluded)
plus user_id; the column defaults give status open and NULL durations. Because
TaskCreate carries no estimated_duration field, the inserted row has none. newId
is the primary key the database assigns. -/
def repo_create (task_data : TaskCreate) (user_id : Nat) (newId : Nat) : TaskRow :=
  { id := newId, user_id := user_id, business_id := task_data.business_id,
    title := task_data.title, description := task_data.description,
    status := "open", priority := task_data.priority,
    estimated_duration := none, actual_duration := none,
    deadline := task_data.deadline, completed_at := none, embedding := none }

/-- Two-digit zero padding of strftime. -/
def pad2 (n : Int) : String :=
  if 0 ≤ n ∧ n < 10 then "0" ++ toString n else toString n

/-- strftime("%d.%m.%Y"). -/
def strftimeDMY (d : PyDateTime) : String :=
  pad2 d.day ++ "." ++ pad2 d.month ++ "." ++ toString d.year

/-- Outcomes of the external calls available to create_task_db_node: session
acquisition, the stdlib datetime.fromisoformat parse (treated as an external pure
capability), and the database insert (the new row id, or a store error). -/
structure CreateEnv where
  sessionResult : Except PyError Unit
  fromiso : String → Except PyError PyDateTime
  insertResult : Except PyError Nat

/-- create_task_db_node (lines 231-303), paired with the row that was inserted, if
any. Short-circuits on an existing error. Inside the try block: acquire a session;
convert the parsed deadline string, absorbing ValueError/TypeError locally (both
deadline fields then stay None); when the parse succeeds the deadline is moved to
23:59:59 and deadline_text is set — note both fields populated; build the
TaskCreate — passing the estimated_duration of the state, which TaskCreate drops —
and insert. Any exception becomes the TaskCreationFailed error. -/
def create_task_db_nodeRun (env : CreateEnv) (state : VoiceTaskState) :
    VoiceTaskState × Option TaskRow :=
  if state.error.isSome then (state, none)
  else
    let body : Except PyError (VoiceTaskState × Option TaskRow) :=
      match env.sessionResult with
      | .error e => .error e
      | .ok _ =>
        let dl : Option PyDateTime × Option String :=
          match state.parsed_deadline with
          | none => (none, none)
          | some ds =>
            if ds = "" then (none, none)
            else
              match env.fromiso ds with
              | .error _ => (none, none)
              | .ok d =>
                (some { d with hour := 23, minute := 59, second := 59 },
                 some (strftimeDMY d))
        match taskCreateInit state.parsed_title state.parsed_business_id
            state.parsed_priority state.estimated_duration dl.1 dl.2 "voice" with
        | .error e => .error e
        | .ok task_data =>
          match env.insertResult with
          | .error e => .error e
          | .ok newId =>
            .ok ({ state with created_task_id := some newId },
              some (repo_create task_data state.user_id newId))
    match body with
    | .ok r => r
    | .error e =>
      ({ state with error := some "TaskCreationFailed",
                    error_message := some ("Не удалось создать задачу: " ++ pyErrText e) },
        none)

/-- The state transformation of the persistence node. -/
def create_task_db_node (env : CreateEnv) (state : VoiceTaskState) : VoiceTaskState :=
  (create_task_db_nodeRun env state).1

/-- External inputs of format_response_node: the stdlib ISO parse and the clock
read used for processing_time_ms. -/
structure FormatEnv where
  fromiso : String → Except PyError PyDateTime
  nowMs : Int

/-- business_names lookup of the formatting node (line 332). -/
def business_names (b : Option Int) : String :=
  match b with
  | some 1 => "Inventum"
  | some 2 => "Inventum Lab"
  | some 3 => "R&D"
  | some 4 => "Trade"
  | _ => "Business " ++ pyShowOptInt b

/-- priority_names lookup of the formatting node (line 333), with the СРЕДНИЙ
default. -/
def priority_names (p : Option Int) : String :=
  match p with
  | some 1 => "ВЫСОКИЙ"
  | some 2 => "СРЕДНИЙ"
  | some 3 => "НИЗКИЙ"
  | some 4 => "ОТЛОЖЕННЫЙ"
  | _ => "СРЕДНИЙ"

/-- format_response_node (lines 306-394). On a populated error slot it only fills
telegram_response with the mapped error text; otherwise it renders the success
message (deadline formatting failures absorbed locally) and records the elapsed
time. In both branches the error slot is left exactly as it was. -/
def format_response_node (env : FormatEnv) (state : VoiceTaskState) : VoiceTaskState :=
  match state.error with
  | some err =>
    let message :=
      if err = "TranscriptionFailed" then
        "[ОШИБКА] Не удалось распознать голос. Попробуйте еще раз."
      else if err = "ParsingFailed" then
        "[ОШИБКА] Не удалось понять задачу. Уточните, пожалуйста."
      else if err = "TaskCreationFailed" then
        "[ОШИБКА] Ошибка при создании задачи. Попробуйте позже."
      else
        "[ОШИБКА] Произошла ошибка: " ++ (state.error_message.getD "Неизвестная ошибка")
    { state with telegram_response := some message }
  | none =>
    let business_name := business_names state.parsed_business_id
    let priority_name := priority_names state.parsed_priority
    let base := "ЗАДАЧА СОЗДАНА\n\n" ++ pyShowOptStr state.parsed_title ++
      "\n\nБизнес:    " ++ business_name ++ "\nПриоритет: " ++ priority_name
    let withDeadline :=
      match state.parsed_deadline with
      | none => base
      | some ds =>
        if ds = "" then base
        else
          match env.fromiso ds with
          | .error _ => base
          | .ok d =>
            let deadline_text :=
              if d.hour ≠ 0 ∨ d.minute ≠ 0 then
                strftimeDMY d ++ " в " ++ pad2 d.hour ++ ":" ++ pad2 d.minute
              else
                strftimeDMY d
            base ++ "\nДедлайн:   " ++ deadline_text
    let withAssigned :=
      match state.parsed_assigned_to with
      | none => withDeadline
      | some a => if a = "" then withDeadline else withDeadline ++ "\nИсполнитель: " ++ a
    let withTime :=
      match state.estimated_duration with
      | none => withAssigned
      | some ed =>
        if ed = 0 then withAssigned
        else
          let hours := Int.fdiv ed 60
          let mins := Int.fmod ed 60
          let time_str :=
            if 0 < hours then
              if 0 < mins then toString hours ++ " ч " ++ toString mins ++ " мин"
              else toString hours ++ " ч"
            else toString mins ++ " мин"
          let confidence :=
            if 3 ≤ state.similar_tasks_count then "(высокая точность)" else "(оценка)"
          withAssigned ++ "\nВремя:     " ++ time_str ++ " " ++ confidence
    { state with telegram_response := some withTime,
                 processing_time_ms := env.nowMs - state.processing_start }

/-- External-call outcomes for one full pipeline run. -/
structure PipelineEnv where
  transcribeText : Except PyError String
  parseProvider : Except PyError ParsedTaskInput
  estimate : EstimateEnv
  create : CreateEnv
  format : FormatEnv

/-- The compiled linear LangGraph workflow (create_voice_task_graph, lines
401-443): transcribe → parse → estimate_time → create_task → format_response. -/
def runPipeline (env : PipelineEnv) (s0 : VoiceTaskState) : VoiceTaskState :=
  format_response_node env.format
    (create_task_db_node env.create
      (estimate_time_rag_node env.estimate
        (parse_task_node env.parseProvider
          (transcribe_voice_node env.transcribeText s0))))

/-! Task domain properties and repository lifecycle operations. -/

/-- Python falsiness of an optional integer (None and 0 are falsy). -/
def pyFalsyOptInt (x : Option Int) : Bool :=
  match x with
  | none => true
  | some n => n == 0

/-- Task.estimation_accuracy (src/domain/models/task.py lines 175-190): None when
either duration is falsy, otherwise 1 - |estimated - actual| / actual clamped to
[0, 1]. Python float arithmetic is modelled by exact rationals; every reachable
value here is exactly representable. -/
def estimation_accuracy (t : TaskRow) : Option Rat :=
  if pyFalsyOptInt t.estimated_duration || pyFalsyOptInt t.actual_duration then
    none
  else
    let e : Rat := ((t.estimated_duration.getD 0 : Int) : Rat)
    let a : Rat := ((t.actual_duration.getD 0 : Int) : Rat)
    let err : Rat := |e - a|
    let accuracy : Rat := 1 - err / a
    some (max 0 (min 1 accuracy))

/-- TaskStatus.can_transition_to (src/domain/models/enums.py lines 144-160): the
documented transition table — open to done, done to archived, done to open,
nothing out of archived. -/
def can_transition_to (s new_status : String) : Bool :=
  let allowed : List String :=
    if s = "open" then ["done"]
    else if s = "done" then ["archived", "open"]
    else if s = "archived" then []
    else []
  allowed.contains new_status

/-- The select-by-id of the tasks table. -/
def dbFind (tbl : List TaskRow) (task_id : Nat) : Option TaskRow :=
  tbl.find? (fun r => r.id == task_id)

/-- TaskRepository.get_by_id (task_repository.py lines 72-89): select, then
Task.model_validate on a hit. -/
def get_by_id (tbl : List TaskRow) (task_id : Nat) : Except PyError (Option TaskRow) :=
  match dbFind tbl task_id with
  | none => .ok none
  | some r =>
    match taskModelValidate r with
    | .error e => .error e
    | .ok t => .ok (some t)

/-- TaskRepository.complete (lines 224-268): fetch the task, raise ValueError when
it is not found or when its status is already done — the ONLY transition check
made — then set status, actual_duration and completed_at, commit (the database
check constraint on actual_duration applies), and return the re-validated task.
Nothing rejects completion of an archived task. -/
def complete (tbl : List TaskRow) (task_id : Nat) (actual_duration : Int)
    (now : Int) : Except PyError (TaskRow × List TaskRow) :=
  match get_by_id tbl task_id with
  | .error e => .error e
  | .ok none => .error (.valueError ("Task " ++ toString task_id ++ " not found"))
  | .ok (some task) =>
    if task.status = "done" then
      .error (.valueError "Task already completed")
    else
      match dbFind tbl task_id with
      | none => .error (.apiError "scalar_one: no row")
      | some orm =>
        if !(inRange 1 480 actual_duration) then
          .error (.apiError "IntegrityError: valid_actual_duration")
        else
          let updated :=
            { orm with
              status := "done"
              actual_duration := some actual_duration
              completed_at := some now }
          match taskModelValidate updated with
          | .error e => .error e
          | .ok completed_task =>
            .ok (completed_task,
              tbl.map (fun r => if r.id == task_id then updated else r))

/-- TaskRepository.delete (lines 270-289): fetch the task, raise ValueError when
it is not found, then unconditionally set status to archived — a soft delete with
no transition check of any kind. -/
def delete (tbl : List TaskRow) (task_id : Nat) : Except PyError (List TaskRow) :=
  match dbFind tbl task_id with
  | none => .error (.valueError ("Task " ++ toString task_id ++ " not found"))
  | some _ =>
    .ok (tbl.map (fun r => if r.id == task_id then { r with status := "archived" } else r))

/-! Concrete fixtures used by witnesses, counterexamples and evaluations. -/

/-- A state as it stands after a successful transcription and (hypothetically)
successful extraction: no error, all draft fields populated. -/
def fullState : VoiceTaskState :=
  { audio_bytes := [1, 2], audio_duration := 5, user_id := 1, telegram_chat_id := 99,
    transcript := some "Нужно починить фрезер", transcript_confidence := some (0.95 : Rat),
    parsed_title := some "Починить фрезер", parsed_business_id := some 1,
    parsed_priority := some 2 }

/-- A state whose error slot is already populated. -/
def errorState : VoiceTaskState :=
  { audio_bytes := [], audio_duration := 3, user_id := 1, telegram_chat_id := 5,
    error := some "ParsingFailed", error_message := some "прошлая ошибка" }

/-- An extraction-provider JSON that is entirely well-formed. -/
def goodParse : ParsedTaskInput :=
  { title := some "Починить фрезер", business_id := some 1, priority := some 2 }

/-- Estimation environment whose session acquisition fails. -/
def failingEstimateEnv : EstimateEnv :=
  { sessionResult := .error (.apiError "database connection refused"),
    retriever := inventumEnv, chatResult := fun _ => .ok "100" }

/-- Estimation environment in which everything works but the store has no similar
completed task. -/
def emptyHistoryEnv : EstimateEnv :=
  { sessionResult := .ok (),
    retriever := { embedResult := .ok [1, 0], dbResult := fun _ _ => .ok [] },
    chatResult := fun _ => .ok "100" }

/-- Persistence environment in which the insert succeeds with id 42. -/
def okCreateEnv : CreateEnv :=
  { sessionResult := .ok (),
    fromiso := fun _ => .error (.valueError "invalid isoformat string"),
    insertResult := .ok 42 }

/-- Formatting environment with a fixed clock. -/
def clockFormatEnv : FormatEnv :=
  { fromiso := fun _ => .error (.valueError "invalid isoformat string"), nowMs := 1234 }

/-- An archived and an open task on file. -/
def archivedRow : TaskRow :=
  { id := 1, user_id := 1, business_id := 1, title := "Старая задача",
    status := "archived", priority := 2, actual_duration := some 30 }

def openRow : TaskRow :=
  { id := 2, user_id := 1, business_id := 1, title := "Новая задача",
    status := "open", priority := 2 }

def statusTable : List TaskRow := [archivedRow, openRow]

/-- A completed task with estimate 120 and actual 100. -/
def accuracyRow : TaskRow :=
  { id := 9, user_id := 1, business_id := 1, title := "Починить фрезер",
    status := "done", priority := 2, estimated_duration := some 120,
    actual_duration := some 100, completed_at := some 50 }

/-! Theorems. -/

/-- If the assertion loop accepted a list, every row in it carries the requested
business id. -/
theorem isolationAssert_ok {tasks : List TaskRow} {b : Option Int}
    (h : isolationAssert tasks b = .ok ()) :
    ∀ t ∈ tasks, some t.business_id = b := by
  intro t ht
  unfold isolationAssert at h
  cases hf : tasks.find? (fun t => !(some t.business_id == b)) with
  | some x => rw [hf] at h; cases h
  | none =>
    have hx := List.find?_eq_none.mp hf t ht
    simpa using hx

/-- C1: for a valid business argument, every task in the list returned by
find_similar_tasks carries exactly that business id; an invalid business argument
raises ValueError immediately, before the embedding provider or the store is
called. -/
theorem find_similar_tasks_isolation (env : RetrieverEnv) (b : Option Int)
    (k : Option Nat) :
    (validBusinessArg b = true →
      ∀ l, (find_similar_tasks env b k).result = .ok l →
        ∀ t ∈ l, some t.business_id = b) ∧
    (validBusinessArg b = false →
      (∃ m, (find_similar_tasks env b k).result = .error (.valueError m)) ∧
      (find_similar_tasks env b k).embedCalled = false ∧
      (find_similar_tasks env b k).storeCalled = false) := by
  constructor
  · intro hb l hres t ht
    unfold find_similar_tasks at hres
    rw [hb] at hres
    simp only [if_true] at hres
    split at hres
    · cases hres
      simp at ht
    · split at hres
      · cases hres
        simp at ht
      · rename_i tasks hbody
        cases hres
        split at hbody
        · cases hbody
        · split at hbody
          · cases hbody
          · rename_i tasks2 hfs u ha
            cases hbody
            exact isolationAssert_ok ha t ht
  · intro hb
    unfold find_similar_tasks
    rw [hb]
    exact ⟨⟨_, rfl⟩, rfl, rfl⟩

/-- Witness for the isolation theorem: at business id 5 the retriever raises
ValueError without calling the embedding provider or the store, and at business
id 1 with the inventumEnv store every returned row carries business id 1. -/
theorem find_similar_tasks_isolation_witness :
    (validBusinessArg (some 5) = false ∧
      (∃ m, (find_similar_tasks inventumEnv (some 5) none).result = .error (.valueError m)) ∧
      (find_similar_tasks inventumEnv (some 5) none).embedCalled = false ∧
      (find_similar_tasks inventumEnv (some 5) none).storeCalled = false) ∧
    (validBusinessArg (some 1) = true ∧
      (find_similar_tasks inventumEnv (some 1) none).result = .ok [inventumRow] ∧
      ∀ t ∈ [inventumRow], some t.business_id = some 1) := by
  constructor
  · have h := (find_similar_tasks_isolation inventumEnv (some 5) none).2 (by decide)
    exact ⟨by decide, h.1, h.2.1, h.2.2⟩
  · have hres : (find_similar_tasks inventumEnv (some 1) none).result = .ok [inventumRow] := by
      rfl
    have h := (find_similar_tasks_isolation inventumEnv (some 1) none).1 (by decide)
      [inventumRow] hres
    exact ⟨by decide, hres, h⟩

/-- C2: when the store returns a row of another business partition, the isolation
assert does fire inside the repository (second conjunct), but the AssertionError is
caught by the blanket except-Exception handler of find_similar_tasks, which turns the
call into an ordinary empty-list success (first conjunct) instead of letting the
programming-fatal failure propagate. The cross-partition row itself is never
returned. -/
theorem isolation_breach_swallowed :
    (find_similar_tasks breachEnv (some 1) none).result = .ok [] ∧
    find_similar (.ok [breachRow]) (some 1) =
      .error (.assertionError "RAG isolation breach! Expected business 1, got 2") := by
  constructor
  · rfl
  · rfl

/-- C3 counterexample: the extraction stage does NOT reject an out-of-range
business_id — ParsedTask(**data) with business_id = 0 validates successfully, so
there is no ParsingFailed at the extraction layer for this input. -/
theorem extraction_accepts_out_of_range_business :
    parsedTaskValidate outOfRangeInput =
      .ok { title := "Починить фрезер", business_id := 0 } := by
  rfl

/-- C3 amended: absence of business_id is rejected at the extraction stage
(pydantic required-field error); a present but out-of-range business_id passes the
extraction stage unchanged, and is rejected only at the retriever layer, which
raises ValueError for 0 and 5 (and any other value outside 1..4). -/
theorem business_id_validation_layers :
    (∀ d : ParsedTaskInput, d.business_id = none →
      ∃ m, parsedTaskValidate d = .error (.validationError m)) ∧
    (∀ (d : ParsedTaskInput) (t : String) (bv : Int), d.title = some t →
      d.business_id = some bv →
      ∃ p, parsedTaskValidate d = .ok p ∧ p.business_id = bv) ∧
    (∀ (env : RetrieverEnv) (k : Option Nat),
      ∃ m, (find_similar_tasks env (some 0) k).result = .error (.valueError m)) ∧
    (∀ (env : RetrieverEnv) (k : Option Nat),
      ∃ m, (find_similar_tasks env (some 5) k).result = .error (.valueError m)) := by
  refine ⟨?_, ?_, ?_, ?_⟩
  · intro d hd
    unfold parsedTaskValidate
    cases ht : d.title with
    | none => exact ⟨_, rfl⟩
    | some t => rw [hd]; exact ⟨_, rfl⟩
  · intro d t bv ht hb
    unfold parsedTaskValidate
    rw [ht, hb]
    exact ⟨_, rfl, rfl⟩
  · intro env k
    have h := (find_similar_tasks_isolation env (some 0) k).2 (by decide)
    exact h.1
  · intro env k
    have h := (find_similar_tasks_isolation env (some 5) k).2 (by decide)
    exact h.1

/-- Witness: concrete inputs for each conjunct of the layered-validation theorem. -/
theorem business_id_validation_layers_witness :
    (∃ m, parsedTaskValidate { title := some "x" } = .error (.validationError m)) ∧
    (∃ p, parsedTaskValidate outOfRangeInput = .ok p ∧ p.business_id = 0) ∧
    (∃ m, (find_similar_tasks inventumEnv (some 0) none).result = .error (.valueError m)) := by
  refine ⟨?_, ?_, ?_⟩
  · exact (business_id_validation_layers.1 { title := some "x" } rfl)
  · exact (business_id_validation_layers.2.1 outOfRangeInput "Починить фрезер" 0 rfl rfl)
  · exact (business_id_validation_layers.2.2.1 inventumEnv none)

/-! Shared helper lemma about the parse node. -/

/-- Whenever the parse node runs on an error-free state, its try block fails — on
a provider or validation error, and on the success path through the undefined
parsed.deadline attribute — so the node records ParsingFailed with some message. -/
theorem parse_node_failure (pr : Except PyError ParsedTaskInput) (s : VoiceTaskState)
    (h : s.error = none) :
    ∃ m, parse_task_node pr s =
      { s with error := some "ParsingFailed", error_message := some m } := by
  unfold parse_task_node
  rw [h]
  cases hp : parse_task_from_transcript pr with
  | error e => exact ⟨_, rfl⟩
  | ok p => exact ⟨_, rfl⟩

/-- C4: for every state that reaches the extraction stage without a prior error
and for every provider outcome — in particular a valid, well-formed extraction
result — parse_task_node ends with error ParsingFailed, and none of the draft
fields it owns is ever written (parsed_title is left unchanged). The stage never
completes successfully because the success path reads parsed.deadline and
parsed.assigned_to, attributes ParsedTask does not define. -/
theorem parse_stage_never_succeeds (pr : Except PyError ParsedTaskInput)
    (s : VoiceTaskState) (h : s.error = none) :
    (parse_task_node pr s).error = some "ParsingFailed" ∧
    (parse_task_node pr s).parsed_title = s.parsed_title := by
  obtain ⟨m, hm⟩ := parse_node_failure pr s h
  rw [hm]
  exact ⟨rfl, rfl⟩

/-- Witness: a fully valid extraction result still yields ParsingFailed. -/
theorem parse_stage_never_succeeds_witness :
    (parse_task_node (.ok goodParse) fullState).error = some "ParsingFailed" ∧
    (parse_task_node (.ok goodParse) fullState).parsed_title = some "Починить фрезер" :=
  parse_stage_never_succeeds (.ok goodParse) fullState rfl

/-- C5 counterexample: the transcription stage, invoked on a state whose error
slot is already populated, does not return the state unmodified — it transcribes
anyway and overwrites the transcript slot. -/
theorem transcription_stage_no_error_check :
    transcribe_voice_node (.ok "Починить фрезер") errorState ≠ errorState := by
  intro h
  have hx := congrArg VoiceTaskState.transcript h
  simp [transcribe_voice_node, errorState] at hx

/-- C5 amended: the parse, estimation and persistence stages short-circuit on a
populated error slot, and response formatting preserves the error slot; the
transcription stage performs no such check but is the entry stage, so for every
run started on an error-free state exactly one error is recorded and the first
fatal error wins: TranscriptionFailed when the transcription provider fails,
otherwise the ParsingFailed of the always-failing extraction stage. -/
theorem pipeline_error_discipline :
    (∀ (pr : Except PyError ParsedTaskInput) (s : VoiceTaskState),
      s.error.isSome = true → parse_task_node pr s = s) ∧
    (∀ (env : EstimateEnv) (s : VoiceTaskState),
      s.error.isSome = true → estimate_time_rag_nodeRun env s = (s, false)) ∧
    (∀ (env : CreateEnv) (s : VoiceTaskState),
      s.error.isSome = true → create_task_db_nodeRun env s = (s, none)) ∧
    (∀ (env : FormatEnv) (s : VoiceTaskState),
      (format_response_node env s).error = s.error) ∧
    (∀ (env : PipelineEnv) (s0 : VoiceTaskState), s0.error = none →
      (runPipeline env s0).error =
        some (match env.transcribeText with
              | .ok _ => "ParsingFailed"
              | .error _ => "TranscriptionFailed")) := by
  have hpar : ∀ (pr : Except PyError ParsedTaskInput) (s : VoiceTaskState),
      s.error.isSome = true → parse_task_node pr s = s := by
    intro pr s h
    unfold parse_task_node
    rw [h]
    rfl
  have hest : ∀ (env : EstimateEnv) (s : VoiceTaskState),
      s.error.isSome = true → estimate_time_rag_nodeRun env s = (s, false) := by
    intro env s h
    unfold estimate_time_rag_nodeRun
    rw [h]
    rfl
  have hcre : ∀ (env : CreateEnv) (s : VoiceTaskState),
      s.error.isSome = true → create_task_db_nodeRun env s = (s, none) := by
    intro env s h
    unfold create_task_db_nodeRun
    rw [h]
    rfl
  have hfmt : ∀ (env : FormatEnv) (s : VoiceTaskState),
      (format_response_node env s).error = s.error := by
    intro env s
    cases he : s.error <;> simp [format_response_node, he]
  have hestN : ∀ (env : EstimateEnv) (s : VoiceTaskState),
      s.error.isSome = true → estimate_time_rag_node env s = s := by
    intro env s h
    unfold estimate_time_rag_node
    rw [hest env s h]
  have hcreN : ∀ (env : CreateEnv) (s : VoiceTaskState),
      s.error.isSome = true → create_task_db_node env s = s := by
    intro env s h
    unfold create_task_db_node
    rw [hcre env s h]
  refine ⟨hpar, hest, hcre, hfmt, ?_⟩
  intro env s0 h0
  unfold runPipeline
  cases htr : env.transcribeText with
  | error e =>
    have h1 : transcribe_voice_node (.error e) s0 =
        { s0 with error := some "TranscriptionFailed",
                  error_message := some ("Не удалось распознать голос: " ++ pyErrText e) } := rfl
    rw [h1, hpar _ _ (by rfl), hestN _ _ (by rfl), hcreN _ _ (by rfl), hfmt]
  | ok t =>
    have h1 : transcribe_voice_node (.ok t) s0 =
        { s0 with transcript := some t, transcript_confidence := some (0.95 : Rat) } := rfl
    obtain ⟨m, hm⟩ := parse_node_failure env.parseProvider
      { s0 with transcript := some t, transcript_confidence := some (0.95 : Rat) } h0
    rw [h1, hm, hestN _ _ (by rfl), hcreN _ _ (by rfl), hfmt]

/-- Witness: the short-circuit stages on a concrete error-carrying state, and a
full run in which transcription fails on one input and succeeds on another. -/
theorem pipeline_error_discipline_witness :
    parse_task_node (.ok goodParse) errorState = errorState ∧
    estimate_time_rag_nodeRun emptyHistoryEnv errorState = (errorState, false) ∧
    create_task_db_nodeRun okCreateEnv errorState = (errorState, none) ∧
    (runPipeline
      { transcribeText := .error (.apiError "audio garbled"),
        parseProvider := .ok goodParse, estimate := emptyHistoryEnv,
        create := okCreateEnv, format := clockFormatEnv }
      { audio_bytes := [1], audio_duration := 4, user_id := 1,
        telegram_chat_id := 7 }).error = some "TranscriptionFailed" ∧
    (runPipeline
      { transcribeText := .ok "Нужно починить фрезер",
        parseProvider := .ok goodParse, estimate := emptyHistoryEnv,
        create := okCreateEnv, format := clockFormatEnv }
      { audio_bytes := [1], audio_duration := 4, user_id := 1,
        telegram_chat_id := 7 }).error = some "ParsingFailed" := by
  refine ⟨pipeline_error_discipline.1 _ _ rfl,
          pipeline_error_discipline.2.1 _ _ rfl,
          pipeline_error_discipline.2.2.1 _ _ rfl, ?_, ?_⟩
  · have h := pipeline_error_discipline.2.2.2.2
      { transcribeText := .error (.apiError "audio garbled"),
        parseProvider := .ok goodParse, estimate := emptyHistoryEnv,
        create := okCreateEnv, format := clockFormatEnv }
      { audio_bytes := [1], audio_duration := 4, user_id := 1, telegram_chat_id := 7 }
      rfl
    simpa using h
  · have h := pipeline_error_discipline.2.2.2.2
      { transcribeText := .ok "Нужно починить фрезер",
        parseProvider := .ok goodParse, estimate := emptyHistoryEnv,
        create := okCreateEnv, format := clockFormatEnv }
      { audio_bytes := [1], audio_duration := 4, user_id := 1, telegram_chat_id := 7 }
      rfl
    simpa using h

/-- C6: a failure inside the estimation stage is absorbed exactly as claimed —
the stage returns the state with estimated_duration 60 and similar_tasks_count 0,
leaves the error slot empty, the persistence stage then runs and the pipeline
reports success (error stays none, created_task_id is set) — BUT the row actually
inserted carries estimated_duration none, not 60: the TaskCreate model has no
estimated_duration field and pydantic silently drops the keyword, so the default
estimate is never persisted. -/
theorem estimation_failure_absorbed_but_estimate_not_persisted :
    estimate_time_rag_nodeRun failingEstimateEnv fullState =
      ({ fullState with similar_tasks_count := 0, estimated_duration := some 60 }, false) ∧
    (create_task_db_nodeRun okCreateEnv
      { fullState with similar_tasks_count := 0, estimated_duration := some 60 }).1.error
      = none ∧
    (create_task_db_nodeRun okCreateEnv
      { fullState with similar_tasks_count := 0, estimated_duration := some 60 }).1.created_task_id
      = some 42 ∧
    (create_task_db_nodeRun okCreateEnv
      { fullState with similar_tasks_count := 0, estimated_duration := some 60 }).1.estimated_duration
      = some 60 ∧
    ((create_task_db_nodeRun okCreateEnv
      { fullState with similar_tasks_count := 0, estimated_duration := some 60 }).2.map
        TaskRow.estimated_duration) = some none ∧
    (format_response_node clockFormatEnv
      (create_task_db_nodeRun okCreateEnv
        { fullState with similar_tasks_count := 0, estimated_duration := some 60 }).1).error
      = none := by
  refine ⟨rfl, rfl, rfl, rfl, rfl, rfl⟩

/-- C7: estimate_time always returns an integer in [1, 480]; a provider error, an
unparsable reply, and a reply outside the interval each yield the default 60. -/
theorem estimate_time_bounded (t b : String) (sim : List (String × Option Int))
    (chat : String → Except PyError String) :
    (1 ≤ estimate_time t b sim chat ∧ estimate_time t b sim chat ≤ 480) ∧
    (∀ e, chat (estimateContext t b sim) = .error e → estimate_time t b sim chat = 60) ∧
    (∀ r, chat (estimateContext t b sim) = .ok r → pyInt (pyStrip r) = none →
      estimate_time t b sim chat = 60) ∧
    (∀ r d, chat (estimateContext t b sim) = .ok r → pyInt (pyStrip r) = some d →
      (d < 1 ∨ 480 < d) → estimate_time t b sim chat = 60) := by
  refine ⟨?_, ?_, ?_, ?_⟩
  · unfold estimate_time
    split
    · exact ⟨by norm_num, by norm_num⟩
    · split
      · exact ⟨by norm_num, by norm_num⟩
      · split
        · exact ⟨by norm_num, by norm_num⟩
        · rename_i hd
          push_neg at hd
          exact ⟨hd.1, hd.2⟩
  · intro e hc
    unfold estimate_time
    rw [hc]
  · intro r hc hp
    unfold estimate_time
    simp only [hc, hp]
  · intro r d hc hp hd
    unfold estimate_time
    simp only [hc, hp, if_pos hd]

/-- Witness: an out-of-range reply of 9999 is replaced by 60, which lies in
[1, 480]. -/
theorem estimate_time_bounded_witness :
    estimate_time "Позвонить поставщику" "Business 4" [] (fun _ => .ok "9999") = 60 ∧
    1 ≤ estimate_time "Позвонить поставщику" "Business 4" [] (fun _ => .ok "9999") ∧
    estimate_time "Позвонить поставщику" "Business 4" [] (fun _ => .ok "9999") ≤ 480 := by
  have h := estimate_time_bounded "Позвонить поставщику" "Business 4" []
    (fun _ => .ok "9999")
  exact ⟨h.2.2.2 "9999" 9999 rfl rfl (by norm_num), h.1.1, h.1.2⟩

/-- C8 counterexample: with zero retrieved neighbors the estimation stage does NOT
invoke the numeric-estimation provider (the provider would have answered 100): the
stage sets the fixed 60-minute default directly. -/
theorem no_history_provider_not_invoked :
    (estimate_time_rag_nodeRun emptyHistoryEnv fullState).2 = false ∧
    (estimate_time_rag_nodeRun emptyHistoryEnv fullState).1.estimated_duration = some 60 := by
  exact ⟨rfl, rfl⟩

/-- C8 amended: when retrieval returns an empty neighbor list the stage skips the
provider entirely and substitutes the 60-minute default without crashing; the
no-history heuristic prompt (calls 30, repairs 120, modeling 90, prototypes 240
minutes) exists in the client and is what estimate_time would send for an empty
neighbor list, but the stage never makes that call. -/
theorem no_history_default_without_provider :
    (∀ (env : EstimateEnv) (s : VoiceTaskState),
      s.error = none → env.sessionResult = .ok () →
      (find_similar_tasks env.retriever s.parsed_business_id none).result = .ok [] →
      estimate_time_rag_nodeRun env s =
        ({ s with similar_tasks_count := 0, estimated_duration := some 60 }, false)) ∧
    (∀ (t b : String) (chat : String → Except PyError String),
      estimate_time t b [] chat =
        match chat (build_time_estimation_no_history t b) with
        | .error _ => 60
        | .ok r =>
          match pyInt (pyStrip r) with
          | none => 60
          | some d => if d < 1 ∨ 480 < d then 60 else d) := by
  constructor
  · intro env s h0 hs hr
    unfold estimate_time_rag_nodeRun
    rw [h0, hs, hr]
    rfl
  · intro t b chat
    rfl

/-- Witness: the no-history environment drives the stage to the (60, 0) default. -/
theorem no_history_default_without_provider_witness :
    estimate_time_rag_nodeRun emptyHistoryEnv fullState =
      ({ fullState with similar_tasks_count := 0, estimated_duration := some 60 }, false) :=
  no_history_default_without_provider.1 emptyHistoryEnv fullState rfl rfl rfl

/-- C9: the domain transition table forbids archived-to-done and open-to-archived
(can_transition_to), yet the repository performs both silently: complete on an
archived task returns it as done, and delete archives an open task, neither with
any validation error. -/
theorem forbidden_transitions_performed :
    (can_transition_to "archived" "done" = false ∧
      ∃ pair, complete statusTable 1 60 777 = .ok pair ∧ pair.1.status = "done") ∧
    (can_transition_to "open" "archived" = false ∧
      ∃ tbl, delete statusTable 2 = .ok tbl ∧
        (dbFind tbl 2).map TaskRow.status = some "archived") := by
  refine ⟨⟨rfl, ⟨_, rfl, rfl⟩⟩, ⟨rfl, ⟨_, rfl, rfl⟩⟩⟩

/-- C10: for a task with both durations present (as every completed task has, with
the 1..480 bound), estimation_accuracy is exactly 1 - |estimated - actual| / actual
clamped to [0, 1]; it is None when either duration is missing; and estimate 120
with actual 100 gives exactly 4/5 = 0.8. -/
theorem estimation_accuracy_clamped_formula :
    (∀ (t : TaskRow) (e a : Int), t.estimated_duration = some e →
      t.actual_duration = some a → 1 ≤ e → 1 ≤ a →
      estimation_accuracy t =
        some (max 0 (min 1 (1 - |(e : Rat) - (a : Rat)| / (a : Rat))))) ∧
    (∀ t : TaskRow, t.estimated_duration = none → estimation_accuracy t = none) ∧
    (∀ t : TaskRow, t.actual_duration = none → estimation_accuracy t = none) ∧
    (∀ t : TaskRow, t.estimated_duration = some 120 → t.actual_duration = some 100 →
      estimation_accuracy t = some ((4 : Rat) / 5)) := by
  have hmain : ∀ (t : TaskRow) (e a : Int), t.estimated_duration = some e →
      t.actual_duration = some a → 1 ≤ e → 1 ≤ a →
      estimation_accuracy t =
        some (max 0 (min 1 (1 - |(e : Rat) - (a : Rat)| / (a : Rat)))) := by
    intro t e a he ha h1e h1a
    have he0 : (e == 0) = false := by
      simp only [beq_eq_false_iff_ne, ne_eq]
      omega
    have ha0 : (a == 0) = false := by
      simp only [beq_eq_false_iff_ne, ne_eq]
      omega
    simp [estimation_accuracy, he, ha, pyFalsyOptInt, he0, ha0]
  refine ⟨hmain, ?_, ?_, ?_⟩
  · intro t he
    simp [estimation_accuracy, he, pyFalsyOptInt]
  · intro t ha
    simp [estimation_accuracy, ha, pyFalsyOptInt]
  · intro t he ha
    rw [hmain t 120 100 he ha (by norm_num) (by norm_num)]
    congr 1
    push_cast
    rw [show |(120 : Rat) - 100| = 20 by norm_num]
    rw [show (1 : Rat) - 20 / 100 = 4 / 5 by norm_num]
    rw [min_eq_right (by norm_num), max_eq_right (by norm_num)]

/-- Witness: the 120-estimated, 100-actual completed task evaluates to exactly
4/5. -/
theorem estimation_accuracy_clamped_formula_witness :
    estimation_accuracy accuracyRow = some ((4 : Rat) / 5) :=
  estimation_accuracy_clamped_formula.2.2.2 accuracyRow rfl rfl

end BusinessPlanner
